import Mathlib

/-!
Verification of the SimPEG regularization engine (src/SimPEG/Regularization.py)
against its natural-language specification.

Model vectors and dense weight vectors are lists of rationals (the code's
linear algebra is exact in this fragment); the IRLS reweighting function,
which uses real exponentials, is embedded over the reals.  Diagonal sparse
matrices (Utils.sdiag) act elementwise; Utils.Identity() acts as the
identity operator; Utils.Zero() reference models are embedded as explicit
zero vectors of the matching length.
-/

namespace SimPEG

/-- Dot product of two dense vectors (numpy r.dot(r)). -/
def dot (a b : List ℚ) : ℚ := (List.zipWith (· * ·) a b).sum

/-- Action of Utils.sdiag(w), the diagonal matrix of the vector w. -/
def sdiagMul (w v : List ℚ) : List ℚ := List.zipWith (· * ·) w v

/-- Elementwise subtraction of dense vectors (numpy m - mref). -/
def listSub (a b : List ℚ) : List ℚ := List.zipWith (· - ·) a b

/-- Sparse-matrix-times-vector, a matrix given as its list of rows. -/
def matVec (rows : List (List ℚ)) (v : List ℚ) : List ℚ :=
  rows.map (fun row => dot row v)

/-- Translation of Smallness.__init__ (Regularization.py lines 506-515):
if cell_weights is None the weighting operator is Utils.Identity(),
otherwise it is Utils.sdiag(self.cell_weights).  The operator is
represented by its action on a vector. -/
def Smallness_W (cell_weights : Option (List ℚ)) (v : List ℚ) : List ℚ :=
  match cell_weights with
  | none => v
  | some w => sdiagMul w v

/-- Translation of BaseRegularization._eval (lines 412-422):
r = self.W * (self.mapping * (m - self.mref)); return 0.5 * r.dot(r).
The weighting operator and the mapping are passed as their actions. -/
def BaseRegularization_eval (W mapping : List ℚ → List ℚ) (mref m : List ℚ) : ℚ :=
  let r := W (mapping (listSub m mref))
  (1 / 2 : ℚ) * dot r r

/-- Value of a Smallness term: BaseRegularization._eval with the Smallness
weighting operator; the default mapping is Maps.IdentityMap, which acts as
the identity on the model vector. -/
def Smallness_value (cell_weights : Option (List ℚ)) (mref m : List ℚ) : ℚ :=
  BaseRegularization_eval (Smallness_W cell_weights) id mref m

lemma Smallness_W_some (w v : List ℚ) : Smallness_W (some w) v = sdiagMul w v := rfl

lemma Smallness_W_none (v : List ℚ) : Smallness_W none v = v := rfl

lemma listSub_replicate_zero (m : List ℚ) :
    listSub m (List.replicate m.length 0) = m := by
  induction m with
  | nil => rfl
  | cons a t ih => simpa [listSub, List.replicate_succ] using ih

lemma sdiagMul_ones (m : List ℚ) :
    sdiagMul (List.replicate m.length 1) m = m := by
  induction m with
  | nil => rfl
  | cons a t ih =>
    simp only [sdiagMul, List.length_cons, List.replicate_succ, List.zipWith_cons_cons, one_mul]
    exact congrArg (a :: ·) ih

lemma dot_self_eq (m : List ℚ) :
    dot m m = (m.map (fun x => x * x)).sum := by
  induction m with
  | nil => rfl
  | cons a t ih =>
    simp only [dot, List.zipWith_cons_cons, List.sum_cons, List.map_cons] at ih ⊢
    rw [ih]

/-- C1: for every penalty term, value(m) returns 0.5 * r.r with
r = W(mapping(m - m_ref)); a Smallness term with unit cell weights
evaluates to half the sum of squares of m - m_ref, and on the 1-D
5-active-cell scenario with m = [1,2,3,4,5], m_ref = 0 the value is
27.5 = 55/2. -/
theorem eval_half_r_dot_r :
    (∀ (W mapping : List ℚ → List ℚ) (mref m : List ℚ),
        BaseRegularization_eval W mapping mref m =
          (1 / 2 : ℚ) * dot (W (mapping (listSub m mref))) (W (mapping (listSub m mref)))) ∧
    (∀ m : List ℚ,
        Smallness_value (some (List.replicate m.length 1)) (List.replicate m.length 0) m =
          (1 / 2 : ℚ) * (m.map (fun x => x * x)).sum) ∧
    Smallness_value (some (List.replicate 5 1)) (List.replicate 5 0) [1, 2, 3, 4, 5] =
      55 / 2 := by
  refine ⟨fun W mapping mref m => rfl, fun m => ?_, ?_⟩
  · show (1 / 2 : ℚ) * dot (Smallness_W _ (id (listSub m _))) (Smallness_W _ (id (listSub m _))) = _
    rw [Smallness_W_some, id_eq, listSub_replicate_zero, sdiagMul_ones, dot_self_eq]
  · norm_num [Smallness_value, BaseRegularization_eval, Smallness_W_some, sdiagMul,
      listSub, dot, List.replicate]

/-- Translation of BaseRegularization.deriv2 (lines 446-474) with v omitted:
mD = self.mapping.deriv(m - self.mref); return mD.T * self.W.T * self.W * mD.
The Hessian depends on the model only through the mapping derivative mD, so
mD is taken as the argument. -/
def deriv2_full {nr nm npar : ℕ} (W : Matrix (Fin nr) (Fin nm) ℚ)
    (mD : Matrix (Fin nm) (Fin npar) ℚ) : Matrix (Fin npar) (Fin npar) ℚ :=
  mD.transpose * W.transpose * W * mD

/-- Translation of BaseRegularization.deriv2 (lines 446-474) with v supplied:
return mD.T * (self.W.T * (self.W * (mD * v))). -/
def deriv2_vec {nr nm npar : ℕ} (W : Matrix (Fin nr) (Fin nm) ℚ)
    (mD : Matrix (Fin nm) (Fin npar) ℚ) (v : Fin npar → ℚ) : Fin npar → ℚ :=
  mD.transpose.mulVec (W.transpose.mulVec (W.mulVec (mD.mulVec v)))

/-- C2: the full Gauss-Newton Hessian returned by deriv2(m) applied to a
vector v equals the directly computed Hessian-vector product deriv2(m, v),
for every weighting operator, mapping derivative and vector v. -/
theorem deriv2_full_mulVec_eq_deriv2_vec :
    ∀ {nr nm npar : ℕ} (W : Matrix (Fin nr) (Fin nm) ℚ)
      (mD : Matrix (Fin nm) (Fin npar) ℚ) (v : Fin npar → ℚ),
      (deriv2_full W mD).mulVec v = deriv2_vec W mD v := by
  intro nr nm npar W mD v
  simp [deriv2_full, deriv2_vec, Matrix.mulVec_mulVec, Matrix.mul_assoc]

/-- C6 counterexample: a Smallness term with cell_weights = [4] has
W = diag(cell_weights) = diag(4), so applying W to [1] yields [4] and not
[2] = diag(sqrt(4)) * [1] as the claim would have it. -/
theorem smallness_W_sqrt_counterexample :
    Smallness_W (some [(4 : ℚ)]) [1] = [4] ∧
    Smallness_W (some [(4 : ℚ)]) [1] ≠ [2] := by
  constructor
  · norm_num [Smallness_W_some, sdiagMul]
  · norm_num [Smallness_W_some, sdiagMul]

/-- C6 amended: the Smallness weighting operator is diag(cellWeights),
with no square root applied (the identity when no cell weights are
supplied); consequently the term value is half the sum of squares of
the elementwise-weighted model residual. -/
theorem smallness_W_diag_amended :
    (∀ w v : List ℚ, Smallness_W (some w) v = List.zipWith (· * ·) w v) ∧
    (∀ v : List ℚ, Smallness_W none v = v) ∧
    (∀ w m : List ℚ,
      Smallness_value (some w) (List.replicate m.length 0) m =
        (1 / 2 : ℚ) * ((List.zipWith (· * ·) w m).map (fun x => x * x)).sum) := by
  refine ⟨fun w v => rfl, fun v => rfl, fun w m => ?_⟩
  show (1 / 2 : ℚ) * dot (Smallness_W _ (id (listSub m _))) (Smallness_W _ (id (listSub m _))) = _
  rw [Smallness_W_some, id_eq, listSub_replicate_zero, dot_self_eq]
  rfl

/-- Translation of the nP logic of BaseRegularization.__init__ (lines
396-410).  Arguments: the parameter count of an explicitly supplied mapping
(self.mapping.nP), the active-cell count of the regularization mesh when a
mesh was supplied (self.regmesh.nC), and the explicitly passed nP.  In the
two conflict branches the code executes warnings("overwriting nP ...") -
a call of the imported warnings module object itself, not warnings.warn -
which in Python raises TypeError, so the constructor propagates an
exception instead of surfacing a warning. -/
def BaseRegularization_nP (mappingNP regmeshNC nP : Option ℕ) :
    Except String (Option ℕ) :=
  match mappingNP with
  | some k =>
    match nP with
    | some _ => Except.error "TypeError: the warnings module object is not callable"
    | none => Except.ok (some k)
  | none =>
    match regmeshNC with
    | some c =>
      match nP with
      | some _ => Except.error "TypeError: the warnings module object is not callable"
      | none => Except.ok (some c)
    | none => Except.ok nP

/-- C5 counterexample: with no mapping, an adapter of 3 active cells and an
explicit nP = 5, the claim says the explicit nP wins over the adapter count
and construction succeeds (with at most a warning); the code instead raises
a TypeError at the malformed warning call, and even its warning message
("overwriting nP with mesh.nC") shows the adapter count was to win. -/
theorem nP_conflict_counterexample :
    BaseRegularization_nP none (some 3) (some 5) =
      Except.error "TypeError: the warnings module object is not callable" ∧
    BaseRegularization_nP none (some 3) (some 5) ≠ Except.ok (some 5) := by
  exact ⟨rfl, fun h => Except.noConfusion h⟩

/-- C5 amended: nP is derived with precedence mapping parameter count,
then adapter active-cell count, then the explicitly passed nP; and a
conflicting explicit nP alongside a derivable value makes construction
fail with a TypeError raised by the malformed warning call (the warnings
module is called as a function), rather than succeed with a warning. -/
theorem nP_precedence_amended :
    (∀ (k : ℕ) (mnc : Option ℕ),
        BaseRegularization_nP (some k) mnc none = Except.ok (some k)) ∧
    (∀ c : ℕ, BaseRegularization_nP none (some c) none = Except.ok (some c)) ∧
    (∀ n : Option ℕ, BaseRegularization_nP none none n = Except.ok n) ∧
    (∀ (k n : ℕ) (mnc : Option ℕ),
        BaseRegularization_nP (some k) mnc (some n) =
          Except.error "TypeError: the warnings module object is not callable") ∧
    (∀ c n : ℕ,
        BaseRegularization_nP none (some c) (some n) =
          Except.error "TypeError: the warnings module object is not callable") :=
  ⟨fun _ _ => rfl, fun _ => rfl, fun _ => rfl, fun _ _ _ => rfl, fun _ _ => rfl⟩

/-- Modelled from the spec: the module ObjectiveFunction is not under src/,
and L2ObjectiveFunction supplies the default weighting operator of a base
penalty term, the identity sized to nP. -/
def L2_default_W : List ℚ → List ℚ := id

/-- Translation of Simple.__init__ (lines 649-658).  After running
BaseRegularization.__init__, the constructor executes
self = self.alpha_s * Smallness(...) + self.alpha_x * SimpleSmooth_x(...)
(and self += ... for y and z on higher-dimensional meshes).  In Python this
rebinds the local name self to the freshly built combo object and never
mutates the instance under construction, so the object returned by
Simple(...) keeps the base-class state: default identity weighting
operator, default Utils.Zero reference model and identity mapping. -/
def Simple_value (m : List ℚ) : ℚ :=
  BaseRegularization_eval L2_default_W id (List.replicate m.length 0) m

/-- Translation of BaseSimpleSmooth.__init__ (lines 539-552): the weighting
operator is regmesh.cellDiff{orientation}Stencil and, with the default
mrefInSmooth = False, mref is reset to Utils.Zero.  The reduced stencil
(Pafx.T * mesh._cellGradxStencil() * Pac for the x axis) is taken as the
argument, given by its rows. -/
def SimpleSmooth_value (stencil : List (List ℚ)) (m : List ℚ) : ℚ :=
  BaseRegularization_eval (matVec stencil) id (List.replicate m.length 0) m

/-- C3: on a 1-D mesh with two unit cells (all active, reduced x stencil
the single interior-face row (-1, 1)) with all multipliers 1 and
m = [1, 2], the object built by Simple.__init__ evaluates to 5/2, while
the multiplier-weighted sum of its intended terms, Smallness plus
SimpleSmooth_x, evaluates to 3: the self rebinding in the constructor
discards the combo, so the composite value does not equal the weighted
sum of the terms. -/
theorem simple_value_not_weighted_sum :
    Simple_value [1, 2] = 5 / 2 ∧
    1 * Smallness_value none (List.replicate 2 0) [1, 2] +
      1 * SimpleSmooth_value [[-1, 1]] [1, 2] = 3 ∧
    (5 / 2 : ℚ) ≠ 3 := by
  refine ⟨?_, ?_, by norm_num⟩
  · norm_num [Simple_value, BaseRegularization_eval, L2_default_W, listSub, dot,
      List.replicate]
  · norm_num [Smallness_value, SimpleSmooth_value, BaseRegularization_eval,
      Smallness_W_none, matVec, listSub, dot, List.replicate]

/-- Translation of the dimensionality assert of SimpleSmooth_y.__init__
(lines 574-582): assert mesh.dim > 1, raised before anything else. -/
def SimpleSmooth_y_construct (dim : ℕ) : Except String Unit :=
  if 1 < dim then Except.ok () else
    Except.error "AssertionError: Mesh must have at least 2 dimensions to regularize along the y-direction"

/-- Translation of the dimensionality assert of SimpleSmooth_z.__init__
(lines 590-599): assert mesh.dim > 2. -/
def SimpleSmooth_z_construct (dim : ℕ) : Except String Unit :=
  if 2 < dim then Except.ok () else
    Except.error "AssertionError: Mesh must have at least 3 dimensions to regularize along the z-direction"

/-- Translation of the dimensionality assert of Smooth_y.__init__
(lines 725-731): assert mesh.dim > 1. -/
def Smooth_y_construct (dim : ℕ) : Except String Unit :=
  if 1 < dim then Except.ok () else
    Except.error "AssertionError: Mesh must have at least 2 dimensions to regularize along the y-direction"

/-- Translation of the dimensionality assert of Smooth_z.__init__
(lines 739-745): assert mesh.dim > 2. -/
def Smooth_z_construct (dim : ℕ) : Except String Unit :=
  if 2 < dim then Except.ok () else
    Except.error "AssertionError: Mesh must have at least 3 dimensions to regularize along the z-direction"

/-- Translation of the dimensionality assert of Smooth_yy.__init__
(lines 802-807): assert mesh.dim > 1. -/
def Smooth_yy_construct (dim : ℕ) : Except String Unit :=
  if 1 < dim then Except.ok () else
    Except.error "AssertionError: Mesh must have at least 2 dimensions to regularize along the y-direction"

/-- Translation of the dimensionality assert of Smooth_zz.__init__
(lines 816-821): assert mesh.dim > 2. -/
def Smooth_zz_construct (dim : ℕ) : Except String Unit :=
  if 2 < dim then Except.ok () else
    Except.error "AssertionError: Mesh must have at least 3 dimensions to regularize along the z-direction"

/-- Translation of the dimensionality assert of Sparse_y.__init__
(lines 999-1006): assert mesh.dim > 1. -/
def Sparse_y_construct (dim : ℕ) : Except String Unit :=
  if 1 < dim then Except.ok () else
    Except.error "AssertionError: Mesh must have at least 2 dimensions to regularize along the y-direction"

/-- Translation of the dimensionality assert of Sparse_z.__init__
(lines 1028-1034): assert mesh.dim > 2. -/
def Sparse_z_construct (dim : ℕ) : Except String Unit :=
  if 2 < dim then Except.ok () else
    Except.error "AssertionError: Mesh must have at least 3 dimensions to regularize along the z-direction"

/-- C8: every y-axis penalty term fails its dimensionality assertion on a
1-dimensional mesh, and every z-axis penalty term fails its dimensionality
assertion on a mesh of dimensionality at most 2. -/
theorem y_z_dimensionality_guards (dy dz : ℕ) (hy : dy = 1) (hz : dz ≤ 2) :
    SimpleSmooth_y_construct dy =
      Except.error "AssertionError: Mesh must have at least 2 dimensions to regularize along the y-direction" ∧
    Smooth_y_construct dy =
      Except.error "AssertionError: Mesh must have at least 2 dimensions to regularize along the y-direction" ∧
    Smooth_yy_construct dy =
      Except.error "AssertionError: Mesh must have at least 2 dimensions to regularize along the y-direction" ∧
    Sparse_y_construct dy =
      Except.error "AssertionError: Mesh must have at least 2 dimensions to regularize along the y-direction" ∧
    SimpleSmooth_z_construct dz =
      Except.error "AssertionError: Mesh must have at least 3 dimensions to regularize along the z-direction" ∧
    Smooth_z_construct dz =
      Except.error "AssertionError: Mesh must have at least 3 dimensions to regularize along the z-direction" ∧
    Smooth_zz_construct dz =
      Except.error "AssertionError: Mesh must have at least 3 dimensions to regularize along the z-direction" ∧
    Sparse_z_construct dz =
      Except.error "AssertionError: Mesh must have at least 3 dimensions to regularize along the z-direction" := by
  subst hy
  have hz2 : ¬ 2 < dz := by omega
  refine ⟨rfl, rfl, rfl, rfl, ?_, ?_, ?_, ?_⟩ <;>
    simp [SimpleSmooth_z_construct, Smooth_z_construct, Smooth_zz_construct,
      Sparse_z_construct, hz2]

/-- C8 witness: the guards evaluated on a 1-D mesh for the y terms and on
a 2-D mesh for the z terms. -/
theorem y_z_dimensionality_guards_witness :
    SimpleSmooth_y_construct 1 =
      Except.error "AssertionError: Mesh must have at least 2 dimensions to regularize along the y-direction" ∧
    Smooth_y_construct 1 =
      Except.error "AssertionError: Mesh must have at least 2 dimensions to regularize along the y-direction" ∧
    Smooth_yy_construct 1 =
      Except.error "AssertionError: Mesh must have at least 2 dimensions to regularize along the y-direction" ∧
    Sparse_y_construct 1 =
      Except.error "AssertionError: Mesh must have at least 2 dimensions to regularize along the y-direction" ∧
    SimpleSmooth_z_construct 2 =
      Except.error "AssertionError: Mesh must have at least 3 dimensions to regularize along the z-direction" ∧
    Smooth_z_construct 2 =
      Except.error "AssertionError: Mesh must have at least 3 dimensions to regularize along the z-direction" ∧
    Smooth_zz_construct 2 =
      Except.error "AssertionError: Mesh must have at least 3 dimensions to regularize along the z-direction" ∧
    Sparse_z_construct 2 =
      Except.error "AssertionError: Mesh must have at least 3 dimensions to regularize along the z-direction" :=
  y_z_dimensionality_guards 1 2 rfl (by omega)

/-- State of a RegularizationMesh restricted to the lazily cached reduced
volume vector (RegularizationMesh.vol, lines 33-43).  meshVol is the
reduced volume Pac.T * mesh.vol; in the scenarios below all cells are
active, so Pac is the identity and meshVol is mesh.vol itself. -/
structure RegMeshVolState where
  meshVol : List ℚ
  volCache : Option (List ℚ)

/-- Translation of the vol property (lines 33-43): the first read stores
the reduced volume array in _vol; later reads return the cached array
object itself, not a copy. -/
def RegularizationMesh_vol (s : RegMeshVolState) : List ℚ × RegMeshVolState :=
  match s.volCache with
  | some v => (v, s)
  | none => (s.meshVol, { s with volCache := some s.meshVol })

/-- Translation of the volume handling of BaseSmooth2.__init__ (lines
768-785): vol = self.regmesh.vol; if self.cell_weights is not None:
vol *= self.cell_weights.  The in-place numpy multiplication vol *= w
updates the very array object the property cached in regmesh._vol, so
after construction the adapter state carries the scaled values.  Returns
the vector used for W together with the adapter state left behind. -/
def BaseSmooth2_volEffect (cell_weights : Option (List ℚ)) (s : RegMeshVolState) :
    List ℚ × RegMeshVolState :=
  let p := RegularizationMesh_vol s
  match cell_weights with
  | none => p
  | some w =>
    let v2 := List.zipWith (· * ·) p.1 w
    (v2, { p.2 with volCache := some v2 })

/-- C9: an adapter whose reduced volume vector [2, 2] is already cached is
mutated by constructing a second-derivative smoothness term with cell
weights [3, 3]: before the construction a read of vol returns [2, 2], and
a later read returns [6, 6] - the cached quantity is not immutable. -/
theorem smooth2_mutates_cached_vol :
    (RegularizationMesh_vol { meshVol := [2, 2], volCache := some [2, 2] }).1 = [2, 2] ∧
    (RegularizationMesh_vol
        (BaseSmooth2_volEffect (some [3, 3])
          { meshVol := [2, 2], volCache := some [2, 2] }).2).1 = [6, 6] ∧
    ([6, 6] : List ℚ) ≠ [2, 2] := by
  refine ⟨rfl, ?_, by norm_num⟩
  norm_num [BaseSmooth2_volEffect, RegularizationMesh_vol]

/-- Translation of the indActive conversion of BaseRegularization.__init__
(lines 378-388): when indActive has non-boolean dtype (an integer index
array idx), the code runs tmp = idx; indActive = np.zeros(mesh.nC,
dtype=bool); indActive[tmp] = True, yielding a boolean mask of length
mesh.nC that is True exactly at the listed indices. -/
def indActive_fromIndices (idx : List ℕ) (nC : ℕ) : List Bool :=
  (List.range nC).map (fun i => decide (i ∈ idx))

/-- Translation of the default mapping substitution (lines 385-388): when
no mapping was given, mapping = Maps.IdentityMap with
nP = self.indActive.nonzero()[0].size, the number of True entries of the
converted mask. -/
def defaultMapping_nP (mask : List Bool) : ℕ := (mask.filter (fun b => b)).length

/-- C10: converting a non-boolean (integer index) active-set array does
not raise: it produces a boolean mask of length equal to the mesh cell
count that is true exactly at the listed indices, and the substituted
identity mapping is sized to the number of active cells, the number of
distinct listed indices.  The hypothesis records the numpy precondition
that every listed index is within bounds. -/
theorem indActive_conversion (idx : List ℕ) (nC : ℕ)
    (h : ∀ j ∈ idx, j < nC) :
    (indActive_fromIndices idx nC).length = nC ∧
    (∀ i, i < nC → (indActive_fromIndices idx nC).getD i false = decide (i ∈ idx)) ∧
    defaultMapping_nP (indActive_fromIndices idx nC) = idx.toFinset.card := by
  refine ⟨by simp [indActive_fromIndices], fun i hi => ?_, ?_⟩
  · simp [indActive_fromIndices, List.getD_eq_getElem?_getD, List.getElem?_map,
      List.getElem?_range, hi]
  · have h1 : defaultMapping_nP (indActive_fromIndices idx nC) =
        ((List.range nC).filter (fun i => decide (i ∈ idx))).length := by
      simp [defaultMapping_nP, indActive_fromIndices, ← List.countP_eq_length_filter,
        List.countP_map, Function.comp_def]
    have hnd : ((List.range nC).filter (fun i => decide (i ∈ idx))).Nodup :=
      (List.nodup_range nC).filter _
    have hfs : ((List.range nC).filter (fun i => decide (i ∈ idx))).toFinset =
        idx.toFinset := by
      ext j
      simp only [List.mem_toFinset, List.mem_filter, List.mem_range,
        decide_eq_true_eq]
      exact ⟨fun hj => hj.2, fun hj => ⟨h j hj, hj⟩⟩
    rw [h1, ← List.toFinset_card_of_nodup hnd, hfs]

/-- C10 witness: the conversion of the index list [0, 2] on a 4-cell mesh,
with the bounds hypothesis discharged at the concrete input. -/
theorem indActive_conversion_witness :
    (indActive_fromIndices [0, 2] 4).length = 4 ∧
    (∀ i, i < 4 → (indActive_fromIndices [0, 2] 4).getD i false = decide (i ∈ [0, 2])) ∧
    defaultMapping_nP (indActive_fromIndices [0, 2] 4) = ([0, 2] : List ℕ).toFinset.card :=
  indActive_conversion [0, 2] 4 (by decide)

/-- Real-valued dot product for the IRLS computations. -/
def dotR (a b : List ℝ) : ℝ := (List.zipWith (· * ·) a b).sum

/-- Real-valued sparse-matrix-times-vector, a matrix given by its rows. -/
def matVecR (rows : List (List ℝ)) (v : List ℝ) : List ℝ :=
  rows.map (fun row => dotR row v)

/-- Translation of BaseSparse.R (lines 931-937):
eta = (eps**(1.-exponent/2.))**0.5 and
r = eta / (f_m**2. + eps**2.)**((1.-exponent/2.)/2.).
Powers with real exponents are Real.rpow; the squarings are ordinary
squares, which is what the float powers compute. -/
noncomputable def BaseSparse_R (f_m eps exponent : ℝ) : ℝ :=
  ((eps ^ (1 - exponent / 2)) ^ ((0.5 : ℝ))) /
    ((f_m ^ 2 + eps ^ 2) ^ ((1 - exponent / 2) / 2))

/-- Translation of the R block of Sparse_x.__init__ (lines 976-982):
R = speye(cellDiffxStencil.shape[0]) when no model is set, otherwise
R = sdiag(R(f_m, eps_q, norm)) with
f_m = cellDiffxStencil * (mapping * model).  A diagonal matrix is
represented by its diagonal; speye is the all-ones diagonal. -/
noncomputable def Sparse_x_Rdiag (stencil : List (List ℝ)) (mappedModel : Option (List ℝ))
    (eps_q norm : ℝ) : List ℝ :=
  match mappedModel with
  | none => List.replicate stencil.length 1
  | some mm => (matVecR stencil mm).map (fun f => BaseSparse_R f eps_q norm)

/-- Translation of the W assembly of Sparse_x.__init__ (lines 984-989):
W = sdiag((gamma * (aveCC2Fx * cell_weights))**0.5) * R * cellDiffxStencil.
aveCw stands for the vector aveCC2Fx * cell_weights; the product of the
two diagonal factors scales the rows of the stencil. -/
noncomputable def Sparse_x_W (gamma : ℝ) (aveCw : List ℝ) (rdiag : List ℝ)
    (stencil : List (List ℝ)) : List (List ℝ) :=
  List.zipWith (fun c row => row.map (fun x => c * x))
    (List.zipWith (· * ·)
      ((aveCw.map (fun w => gamma * w)).map (fun x => x ^ ((0.5 : ℝ)))) rdiag)
    stencil

/-- Translation of SparseSmallness.__init__ (lines 951-962).  When no
model is set, W = sdiag((gamma*cell_weights)**0.5) * speye(nC),
represented by its diagonal.  When a model is set the code reads
self.norms, an attribute neither BaseSparse nor SparseSmallness ever
assigns (the class attribute is the scalar norm; norms exists only when
injected through keyword arguments, passed here as an Option), computes
the local vector r = R(f_m, eps_p, norms[0]) from
f_m = mapping * (model - mref), and then builds Utils.sdiag(self.r): the
attribute r is never assigned anywhere, so in Python this read raises
AttributeError and construction fails. -/
noncomputable def SparseSmallness_W (gamma : ℝ) (cell_weights : List ℝ)
    (model : Option (List ℝ)) (mref : List ℝ) (eps_p : ℝ)
    (norms : Option (List ℝ)) : Except String (List ℝ) :=
  match model with
  | none =>
    Except.ok ((cell_weights.map (fun w => gamma * w)).map (fun x => x ^ ((0.5 : ℝ))))
  | some mdl =>
    match norms with
    | none => Except.error "AttributeError: self.norms"
    | some ns =>
      let f_m := List.zipWith (· - ·) mdl mref
      let r := f_m.map (fun f => BaseSparse_R f eps_p (ns.headD 0))
      Except.error "AttributeError: self.r"

/-- C4: constructing SparseSmallness while a current model is set does not
produce the claimed weighting operator: on a 1-active-cell mesh with
gamma = 1, cell_weights = [1], model = [1], mref = [0], eps_p = 1/10, the
construction fails with AttributeError - self.norms is absent unless
injected by keyword, and even with norms injected the code reads self.r
where only the local variable r was assigned - instead of returning
diag(sqrt(gamma*cellWeights)) * diag(R(f_m, eps_p, norm)). -/
theorem sparseSmallness_model_attribute_error :
    SparseSmallness_W 1 [1] (some [1]) [0] (1 / 10) none =
      Except.error "AttributeError: self.norms" ∧
    SparseSmallness_W 1 [1] (some [1]) [0] (1 / 10) (some [0, 2, 2, 2]) =
      Except.error "AttributeError: self.r" :=
  ⟨rfl, rfl⟩

lemma BaseSparse_R_norm_two (f eps : ℝ) : BaseSparse_R f eps 2 = 1 := by
  unfold BaseSparse_R
  rw [show (1 - (2 : ℝ) / 2) = 0 by norm_num]
  rw [Real.rpow_zero, Real.one_rpow, zero_div, Real.rpow_zero, div_one]

/-- C7: a sparse term constructed before any current model is set uses the
identity reweighting operator R (speye), and its W coincides with the
non-IRLS pure-L2 construction: the x-derivative W built with no model
equals the W built with any current model under norm = 2 (where the
reweighting function is constantly 1), and the no-model smallness W is
diag(sqrt(gamma*cellWeights)) times the all-ones (identity) diagonal. -/
theorem sparse_no_model_is_L2 :
    (∀ (stencil : List (List ℝ)) (eps norm : ℝ),
        Sparse_x_Rdiag stencil none eps norm = List.replicate stencil.length 1) ∧
    (∀ (stencil : List (List ℝ)) (mm : List ℝ) (eps gamma : ℝ) (aveCw : List ℝ),
        Sparse_x_W gamma aveCw (Sparse_x_Rdiag stencil (some mm) eps 2) stencil =
          Sparse_x_W gamma aveCw (Sparse_x_Rdiag stencil none eps 2) stencil) ∧
    (∀ (gamma : ℝ) (cw mref : List ℝ) (eps : ℝ) (norms : Option (List ℝ)),
        SparseSmallness_W gamma cw none mref eps norms =
          Except.ok ((cw.map (fun w => gamma * w)).map (fun x => x ^ ((0.5 : ℝ))))) := by
  refine ⟨fun stencil eps norm => rfl, fun stencil mm eps gamma aveCw => ?_,
    fun _ _ _ _ _ => rfl⟩
  have hR : Sparse_x_Rdiag stencil (some mm) eps 2 = List.replicate stencil.length 1 := by
    unfold Sparse_x_Rdiag
    refine List.eq_replicate_iff.2 ⟨?_, ?_⟩
    · simp [matVecR]
    · intro b hb
      obtain ⟨f, _, rfl⟩ := List.mem_map.1 hb
      exact BaseSparse_R_norm_two f eps
  rw [hR]
  rfl

end SimPEG
